import Mathlib

/-!
# Verification of the SaveWebPToS3 pipeline

Shallow embedding of `src/__init__.py` (class `SaveWebPToS3`): a per-image
pipeline that encodes a main WebP image and a thumbnail, uploads both to an
S3-compatible store under orientation-partitioned keys, retries the upload
pair up to 3 times, and publishes a success or failure event through the
notification channel (`PromptServer.instance.send_sync`).

Effectful steps (encodes, uploads, notifications) are recorded as an event
trace; failure of the external collaborators (codec, storage) is supplied by
an environment of per-attempt outcomes, so that the control flow of the
source can be examined under every failure schedule.
-/

/-- The payload of a notification event, mirroring the two dictionaries sent
through `send_sync` in `_process_single_image`. -/
inductive Payload where
  | success (url thumbUrl path thumbPath orientation : String) (width height : Nat)
  | failure (error : String) (index : Nat)
deriving DecidableEq, Repr

/-- One observable effect of the pipeline: an encode submission, an upload
submission (bucket, key, 0-based attempt index), or a notification publish
(event name, payload, optional session id). -/
inductive Event where
  | encodeMain (width height quality : Nat)
  | encodeThumb (width height quality : Nat)
  | uploadMain (bucket key : String) (attempt : Nat)
  | uploadThumb (bucket key : String) (attempt : Nat)
  | notify (name : String) (payload : Payload) (sid : Option String)
deriving DecidableEq, Repr

/-- Failure schedule for one image: whether each encode succeeds (with the
error text raised otherwise), and per attempt whether each of the two
uploads succeeds (with the error text raised otherwise). -/
structure ImageEnv where
  encodeMainErr : Option String
  encodeThumbErr : Option String
  uploadMainOk : Nat → Bool
  uploadThumbOk : Nat → Bool
  uploadMainErr : Nat → String
  uploadThumbErr : Nat → String

/-- An input image, reduced to what the pipeline observes of the tensor:
`h, w = image_tensor.shape[:2]`, plus the uuid the run draws (`uuid.uuid4()`
is modelled as an arbitrary given string, fresh per image). -/
structure ImageInput where
  w : Nat
  h : Nat
  filename : String

/-- Embeds `sid = client_id if client_id else None` (line 73). -/
def sidOf (clientId : String) : Option String :=
  if clientId = "" then none else some clientId

/-- Embeds `_get_orientation` (lines 168-173). -/
def getOrientation (w h : Nat) : String :=
  if w > h then "landscape"
  else if h > w then "portrait"
  else "square"

/-- Embeds `main_key` (line 78). -/
def mainKey (orientation filename : String) : String :=
  "generated/originals/" ++ orientation ++ "/" ++ filename ++ ".webp"

/-- Embeds `thumb_key` (line 79). -/
def thumbKey (orientation filename : String) : String :=
  "generated/thumbnails/" ++ orientation ++ "/" ++ filename ++ "_thumb.webp"

/-- Thumbnail dimensions (lines 82-85): aspect-preserving, the long edge is
`thumb_size`, the short edge is `int(short * thumb_size / long)` which for
nonnegative integers is floor division. Returns (width, height). -/
def thumbDims (w h thumbSize : Nat) : Nat × Nat :=
  if w > h then (thumbSize, h * thumbSize / w)
  else (w * thumbSize / h, thumbSize)

/-- Embeds the rstrip call of lines 141-142: drop every trailing slash. -/
def rstripSlash (s : String) : String :=
  String.mk ((s.data.reverse.dropWhile (fun c => c = '/')).reverse)

/-- The retry loop (lines 132-166): `for attempt in range(3)`. On every
attempt both uploads are submitted to the two-worker executor; the attempt
succeeds only if both succeed. The error observed is the main upload error
when the main upload failed (its future is awaited first), otherwise the
thumbnail upload error. On success the success notification is published and
the loop returns; on failure with attempts remaining the buffers are rewound
and the loop continues; on failure of the last attempt the failure
notification is published and the error re-raised. `fuel` is the number of
loop iterations still to run (initially `max_retries = 3`). -/
def uploadLoop (env : ImageEnv) (sid : Option String) (succPayload : Payload)
    (idx : Nat) (bucket mKey tKey : String) :
    Nat → Nat → List Event × Except String Unit
  | _, 0 => ([], Except.ok ())
  | attempt, fuel + 1 =>
    let evs : List Event :=
      [Event.uploadMain bucket mKey attempt, Event.uploadThumb bucket tKey attempt]
    if env.uploadMainOk attempt && env.uploadThumbOk attempt then
      (evs ++ [Event.notify "s3-image-uploaded" succPayload sid], Except.ok ())
    else
      let e : String :=
        if env.uploadMainOk attempt then env.uploadThumbErr attempt
        else env.uploadMainErr attempt
      if fuel = 0 then
        (evs ++ [Event.notify "s3-upload-failed" (Payload.failure e idx) sid],
         Except.error e)
      else
        let r := uploadLoop env sid succPayload idx bucket mKey tKey (attempt + 1) fuel
        (evs ++ r.1, r.2)

/-- Embeds `_process_single_image` (lines 72-166). Derives keys, orientation and
thumbnail dimensions, submits the two encodes (both are submitted before
either result is awaited; a codec failure propagates with no notification,
the main encode result being awaited first), then runs the upload retry
loop with `max_retries = 3`. Returns the event trace and the result
(`Except.error e` models the exception `e` escaping to the caller). -/
def processSingleImage (env : ImageEnv) (img : ImageInput) (idx : Nat)
    (quality thumbQuality thumbSize : Nat) (bucket publicUrl clientId : String) :
    List Event × Except String Unit :=
  let sid := sidOf clientId
  let orientation := getOrientation img.w img.h
  let mKey := mainKey orientation img.filename
  let tKey := thumbKey orientation img.filename
  let td := thumbDims img.w img.h thumbSize
  let encEvs : List Event :=
    [Event.encodeMain img.w img.h quality, Event.encodeThumb td.1 td.2 thumbQuality]
  match env.encodeMainErr, env.encodeThumbErr with
  | some e, _ => (encEvs, Except.error e)
  | none, some e => (encEvs, Except.error e)
  | none, none =>
    let mainUrl := rstripSlash publicUrl ++ "/" ++ mKey
    let thumbUrl := rstripSlash publicUrl ++ "/" ++ tKey
    let succPayload :=
      Payload.success mainUrl thumbUrl mKey tKey orientation img.w img.h
    let r := uploadLoop env sid succPayload idx bucket mKey tKey 0 3
    (encEvs ++ r.1, r.2)

/-- The configuration strings checked at the top of `process` (lines 41-46). -/
structure S3Config where
  endpoint : String
  accessKey : String
  secretKey : String
  bucket : String
  publicUrl : String

/-- Embeds the check `all([s3_endpoint, s3_access_key, s3_secret_key, s3_bucket, s3_public_url])`:
a Python string is truthy exactly when non-empty. -/
def configOk (c : S3Config) : Bool :=
  !(c.endpoint == "") && !(c.accessKey == "") && !(c.secretKey == "") &&
  !(c.bucket == "") && !(c.publicUrl == "")

/-- The first error among the future results, in submission order: the batch
loop `for future in futures: future.result()` (lines 67-68) re-raises the
error of the earliest-submitted failed future. -/
def firstError : List (Except String Unit) → Except String Unit
  | [] => Except.ok ()
  | Except.ok () :: rest => firstError rest
  | Except.error e :: _ => Except.error e

/-- Embeds `process` (lines 41-70). If any credential string is empty it raises
ValueError before any client is built or any image dispatched. Otherwise
every image is submitted to the pool and every future runs to a terminal
state (exiting the `with ThreadPoolExecutor` block joins all workers even
when a `result()` call raises, and pending futures are not cancelled), so
the trace contains the full trace of every image; the call then re-raises the
first error in submission order, if any. The traces are concatenated in
index order; the claims below depend only on per-image event counts, which
any thread interleaving preserves. -/
def process (cfg : S3Config) (envs : Nat → ImageEnv) (images : List ImageInput)
    (quality thumbQuality thumbSize : Nat) (clientId : String) :
    List Event × Except String Unit :=
  if configOk cfg then
    let results := images.enum.map (fun p =>
      processSingleImage (envs p.1) p.2 p.1 quality thumbQuality thumbSize
        cfg.bucket cfg.publicUrl clientId)
    ((results.map Prod.fst).flatten, firstError (results.map Prod.snd))
  else
    ([], Except.error "S3 credentials missing")

/-! ## Trace observation helpers -/

/-- Is this event a main-artifact upload submission? -/
def isUploadMain : Event → Bool
  | Event.uploadMain _ _ _ => true
  | _ => false

/-- Is this event a thumbnail upload submission? -/
def isUploadThumb : Event → Bool
  | Event.uploadThumb _ _ _ => true
  | _ => false

/-- Is this event a notification publish (of any name)? -/
def isNotify : Event → Bool
  | Event.notify _ _ _ => true
  | _ => false

/-- Is this event a notification publish with the given event name? -/
def isNotifyName (name : String) : Event → Bool
  | Event.notify n _ _ => n == name
  | _ => false

/-- Is this event a notification carrying a success payload? -/
def isSuccessNotify : Event → Bool
  | Event.notify _ (Payload.success _ _ _ _ _ _ _) _ => true
  | _ => false

/-- Is this event a notification carrying a failure payload? -/
def isFailureNotify : Event → Bool
  | Event.notify _ (Payload.failure _ _) _ => true
  | _ => false

/-- Every notification in the event carries the given session id
(non-notification events pass vacuously). -/
def notifySidIs (sid : Option String) : Event → Bool
  | Event.notify _ _ s => s == sid
  | _ => true

/-- A success-payload notification is named "s3-image-uploaded" and a
failure-payload one "s3-upload-failed" (other events pass vacuously). -/
def notifyNameOk : Event → Bool
  | Event.notify n (Payload.success _ _ _ _ _ _ _) _ => n == "s3-image-uploaded"
  | Event.notify n (Payload.failure _ _) _ => n == "s3-upload-failed"
  | _ => true

/-- Main uploads use exactly the main key and thumbnail uploads the
thumbnail key, all in the given bucket (other events pass vacuously). -/
def uploadKeysAre (bucket mKey tKey : String) : Event → Bool
  | Event.uploadMain b k _ => b == bucket && k == mKey
  | Event.uploadThumb b k _ => b == bucket && k == tKey
  | _ => true

/-! ## Canonical failure schedules used by the claims -/

/-- Every collaborator call succeeds. -/
def allOkEnv : ImageEnv :=
  { encodeMainErr := none
    encodeThumbErr := none
    uploadMainOk := fun _ => true
    uploadThumbOk := fun _ => true
    uploadMainErr := fun _ => ""
    uploadThumbErr := fun _ => "" }

/-- The schedule of the retry-idempotence scenario: the thumbnail upload
succeeds on every attempt, the main upload fails on attempts 1 and 2
(0-based 0 and 1) and succeeds on attempt 3. -/
def mainFlakyEnv : ImageEnv :=
  { allOkEnv with
    uploadMainOk := fun a => decide (2 ≤ a)
    uploadMainErr := fun _ => "connection reset" }

/-- Every main-upload attempt fails with the given error text. -/
def mainAlwaysFailsEnv (e : String) : ImageEnv :=
  { allOkEnv with
    uploadMainOk := fun _ => false
    uploadMainErr := fun _ => e }

/-- The main encode fails with the given codec error. -/
def encodeFailsEnv (e : String) : ImageEnv :=
  { allOkEnv with encodeMainErr := some e }

/-- A small concrete landscape image used by closed scenario theorems. -/
def sampleImage : ImageInput := { w := 4, h := 2, filename := "f0" }

/-- The success payload built at lines 135-152 of the source, in terms of the
image and configuration. -/
def successPayloadOf (img : ImageInput) (publicUrl : String) : Payload :=
  Payload.success
    (rstripSlash publicUrl ++ "/" ++ mainKey (getOrientation img.w img.h) img.filename)
    (rstripSlash publicUrl ++ "/" ++ thumbKey (getOrientation img.w img.h) img.filename)
    (mainKey (getOrientation img.w img.h) img.filename)
    (thumbKey (getOrientation img.w img.h) img.filename)
    (getOrientation img.w img.h) img.w img.h

/-- Is this event a main-image encode submission? -/
def isEncodeMain : Event → Bool
  | Event.encodeMain _ _ _ => true
  | _ => false

/-- An otherwise valid configuration whose bucket is empty. -/
def emptyBucketCfg : S3Config :=
  { endpoint := "e", accessKey := "a", secretKey := "s", bucket := "", publicUrl := "u" }

/-- The configuration of the batch-isolation scenario. -/
def batchCfg : S3Config :=
  { endpoint := "https://s3.example", accessKey := "AK", secretKey := "SK",
    bucket := "bkt", publicUrl := "https://cdn.example/" }

/-- Failure schedules of the batch-isolation scenario: image 1 exhausts its
retries, images 0 and 2 succeed. -/
def batchEnvs : Nat → ImageEnv :=
  fun i => if i = 1 then mainAlwaysFailsEnv "socket timeout" else allOkEnv

/-- The three images of the batch-isolation scenario. -/
def batchImages : List ImageInput :=
  [{ w := 2, h := 2, filename := "a" }, { w := 3, h := 1, filename := "b" },
   { w := 1, h := 3, filename := "c" }]

deriving instance DecidableEq for Except

/-! ## General lemmas about the upload retry loop -/

/-- For fuel at least 1, the retry loop emits exactly one notification and it
is the final event of the loop trace: the trace is some notification-free
prefix followed by a single notification. -/
theorem uploadLoop_last_notify (env : ImageEnv) (sid : Option String) (p : Payload)
    (idx : Nat) (b mk tk : String) :
    ∀ fuel attempt, 0 < fuel →
      ∃ pre last, (uploadLoop env sid p idx b mk tk attempt fuel).1 = pre ++ [last] ∧
        isNotify last = true ∧ pre.all (fun ev => !isNotify ev) = true := by
  intro fuel
  induction fuel with
  | zero => intro _ h; exact absurd h (by simp)
  | succ f ih =>
    intro attempt _
    by_cases hok : (env.uploadMainOk attempt && env.uploadThumbOk attempt) = true
    · exact ⟨[Event.uploadMain b mk attempt, Event.uploadThumb b tk attempt],
        Event.notify "s3-image-uploaded" p sid,
        by simp [uploadLoop, hok], rfl, by simp [isNotify]⟩
    · by_cases hf : f = 0
      · subst hf
        exact ⟨[Event.uploadMain b mk attempt, Event.uploadThumb b tk attempt],
          Event.notify "s3-upload-failed"
            (Payload.failure
              (if env.uploadMainOk attempt then env.uploadThumbErr attempt
               else env.uploadMainErr attempt) idx) sid,
          by simp [uploadLoop, hok], rfl, by simp [isNotify]⟩
      · obtain ⟨pre, last, heq, h1, h2⟩ := ih (attempt + 1) (Nat.pos_of_ne_zero hf)
        refine ⟨Event.uploadMain b mk attempt :: Event.uploadThumb b tk attempt :: pre,
          last, ?_, h1, ?_⟩
        · simp [uploadLoop, hok, hf, heq]
        · simp only [List.all_cons, h2, Bool.and_true]
          simp [isNotify]

/-- For fuel at least 1, the retry loop trace contains exactly one
notification event. -/
theorem uploadLoop_notify_count (env : ImageEnv) (sid : Option String) (p : Payload)
    (idx : Nat) (b mk tk : String) (fuel attempt : Nat) (hf : 0 < fuel) :
    ((uploadLoop env sid p idx b mk tk attempt fuel).1).countP isNotify = 1 := by
  obtain ⟨pre, last, heq, h1, h2⟩ :=
    uploadLoop_last_notify env sid p idx b mk tk fuel attempt hf
  rw [heq, List.countP_append]
  have hpre : pre.countP isNotify = 0 := by
    rw [List.countP_eq_zero]
    intro a ha
    have hh := List.all_eq_true.mp h2 a ha
    simp only [Bool.not_eq_true'] at hh
    simp [hh]
  rw [hpre, List.countP_cons, List.countP_nil]
  simp [h1]

/-- Every predicate holding on each upload submission, on the success
notification and on every failure notification holds on each event of the
retry loop trace. -/
theorem uploadLoop_all (env : ImageEnv) (sid : Option String) (p : Payload)
    (idx : Nat) (b mk tk : String) (q : Event → Bool)
    (hm : ∀ a, q (Event.uploadMain b mk a) = true)
    (ht : ∀ a, q (Event.uploadThumb b tk a) = true)
    (hs : q (Event.notify "s3-image-uploaded" p sid) = true)
    (hfa : ∀ e, q (Event.notify "s3-upload-failed" (Payload.failure e idx) sid) = true) :
    ∀ fuel attempt, ((uploadLoop env sid p idx b mk tk attempt fuel).1).all q = true := by
  intro fuel
  induction fuel with
  | zero => intro attempt; simp [uploadLoop]
  | succ f ih =>
    intro attempt
    by_cases hok : (env.uploadMainOk attempt && env.uploadThumbOk attempt) = true
    · simp [uploadLoop, hok, hm, ht, hs]
    · by_cases hf : f = 0
      · subst hf
        simp [uploadLoop, hok, hm, ht, hfa]
      · have := ih (attempt + 1)
        simp [uploadLoop, hok, hf, hm, ht, this]

/-- Each iteration of the retry loop submits the main upload exactly once,
so the loop performs at most `fuel` main-upload submissions. -/
theorem uploadLoop_uploadMain_le (env : ImageEnv) (sid : Option String) (p : Payload)
    (idx : Nat) (b mk tk : String) :
    ∀ fuel attempt,
      ((uploadLoop env sid p idx b mk tk attempt fuel).1).countP isUploadMain ≤ fuel := by
  intro fuel
  induction fuel with
  | zero => intro attempt; simp [uploadLoop]
  | succ f ih =>
    intro attempt
    by_cases hok : (env.uploadMainOk attempt && env.uploadThumbOk attempt) = true
    · simp [uploadLoop, hok, List.countP_cons, isUploadMain, isNotify]
    · by_cases hf : f = 0
      · subst hf
        simp [uploadLoop, hok, List.countP_cons, isUploadMain]
      · have h2 := ih (attempt + 1)
        simp [uploadLoop, hok, hf, List.countP_cons, List.countP_append, isUploadMain]
        omega

/-- Each iteration of the retry loop submits the thumbnail upload exactly
once, so the loop performs at most `fuel` thumbnail-upload submissions. -/
theorem uploadLoop_uploadThumb_le (env : ImageEnv) (sid : Option String) (p : Payload)
    (idx : Nat) (b mk tk : String) :
    ∀ fuel attempt,
      ((uploadLoop env sid p idx b mk tk attempt fuel).1).countP isUploadThumb ≤ fuel := by
  intro fuel
  induction fuel with
  | zero => intro attempt; simp [uploadLoop]
  | succ f ih =>
    intro attempt
    by_cases hok : (env.uploadMainOk attempt && env.uploadThumbOk attempt) = true
    · simp [uploadLoop, hok, List.countP_cons, isUploadThumb, isNotify]
    · by_cases hf : f = 0
      · subst hf
        simp [uploadLoop, hok, List.countP_cons, isUploadThumb]
      · have h2 := ih (attempt + 1)
        simp [uploadLoop, hok, hf, List.countP_cons, List.countP_append, isUploadThumb]
        omega

/-! ## Unfolding lemmas for the per-image pipeline -/

/-- When both encodes succeed, the pipeline is the two encode events followed
by the retry loop with fuel 3. -/
theorem processSingleImage_ok (env : ImageEnv) (img : ImageInput)
    (idx quality thumbQuality thumbSize : Nat) (bucket publicUrl clientId : String)
    (h1 : env.encodeMainErr = none) (h2 : env.encodeThumbErr = none) :
    processSingleImage env img idx quality thumbQuality thumbSize bucket publicUrl clientId =
      (Event.encodeMain img.w img.h quality ::
        Event.encodeThumb (thumbDims img.w img.h thumbSize).1
          (thumbDims img.w img.h thumbSize).2 thumbQuality ::
        (uploadLoop env (sidOf clientId) (successPayloadOf img publicUrl) idx bucket
          (mainKey (getOrientation img.w img.h) img.filename)
          (thumbKey (getOrientation img.w img.h) img.filename) 0 3).1,
       (uploadLoop env (sidOf clientId) (successPayloadOf img publicUrl) idx bucket
          (mainKey (getOrientation img.w img.h) img.filename)
          (thumbKey (getOrientation img.w img.h) img.filename) 0 3).2) := by
  unfold processSingleImage
  rw [h1, h2]
  rfl

/-- When the main encode fails, its error escapes after the two encode
submissions: no upload, no notification. -/
theorem processSingleImage_encodeMain_fails (env : ImageEnv) (img : ImageInput)
    (idx quality thumbQuality thumbSize : Nat) (bucket publicUrl clientId : String)
    (e : String) (h1 : env.encodeMainErr = some e) :
    processSingleImage env img idx quality thumbQuality thumbSize bucket publicUrl clientId =
      ([Event.encodeMain img.w img.h quality,
        Event.encodeThumb (thumbDims img.w img.h thumbSize).1
          (thumbDims img.w img.h thumbSize).2 thumbQuality],
       Except.error e) := by
  unfold processSingleImage
  rw [h1]

/-- When the main encode succeeds but the thumbnail encode fails, the
thumbnail codec error escapes after the two encode submissions. -/
theorem processSingleImage_encodeThumb_fails (env : ImageEnv) (img : ImageInput)
    (idx quality thumbQuality thumbSize : Nat) (bucket publicUrl clientId : String)
    (e : String) (h1 : env.encodeMainErr = none) (h2 : env.encodeThumbErr = some e) :
    processSingleImage env img idx quality thumbQuality thumbSize bucket publicUrl clientId =
      ([Event.encodeMain img.w img.h quality,
        Event.encodeThumb (thumbDims img.w img.h thumbSize).1
          (thumbDims img.w img.h thumbSize).2 thumbQuality],
       Except.error e) := by
  unfold processSingleImage
  rw [h1, h2]

/-- A predicate holding on all encodes, on uploads under the image keys, and
on the two possible notifications of an image holds on every event of the trace
of that image, whatever the failure schedule. -/
theorem processSingleImage_all (env : ImageEnv) (img : ImageInput)
    (idx q tq ts : Nat) (b u cid : String) (p : Event → Bool)
    (he1 : ∀ wq hq qq, p (Event.encodeMain wq hq qq) = true)
    (he2 : ∀ wq hq qq, p (Event.encodeThumb wq hq qq) = true)
    (hm : ∀ a, p (Event.uploadMain b (mainKey (getOrientation img.w img.h) img.filename) a) = true)
    (ht : ∀ a, p (Event.uploadThumb b (thumbKey (getOrientation img.w img.h) img.filename) a) = true)
    (hs : p (Event.notify "s3-image-uploaded" (successPayloadOf img u) (sidOf cid)) = true)
    (hfa : ∀ e, p (Event.notify "s3-upload-failed" (Payload.failure e idx) (sidOf cid)) = true) :
    (processSingleImage env img idx q tq ts b u cid).1.all p = true := by
  cases h1 : env.encodeMainErr with
  | some e1 =>
    rw [processSingleImage_encodeMain_fails env img idx q tq ts b u cid e1 h1]
    simp [he1, he2]
  | none =>
    cases h2 : env.encodeThumbErr with
    | some e2 =>
      rw [processSingleImage_encodeThumb_fails env img idx q tq ts b u cid e2 h1 h2]
      simp [he1, he2]
    | none =>
      rw [processSingleImage_ok env img idx q tq ts b u cid h1 h2]
      have hall := uploadLoop_all env (sidOf cid) (successPayloadOf img u) idx b
        (mainKey (getOrientation img.w img.h) img.filename)
        (thumbKey (getOrientation img.w img.h) img.filename) p hm ht hs hfa 3 0
      simp [List.all_cons, he1, he2, hall]

/-- A predicate holding on every event of every possible single-image trace
holds on every event of a batch trace. -/
theorem process_all (cfg : S3Config) (envs : Nat → ImageEnv) (images : List ImageInput)
    (q tq ts : Nat) (cid : String) (p : Event → Bool)
    (hone : ∀ env img idx,
      (processSingleImage env img idx q tq ts cfg.bucket cfg.publicUrl cid).1.all p = true) :
    (process cfg envs images q tq ts cid).1.all p = true := by
  unfold process
  by_cases hc : configOk cfg = true
  · rw [if_pos hc]
    rw [List.all_eq_true]
    intro x hx
    rw [List.mem_flatten] at hx
    obtain ⟨l, hl, hxl⟩ := hx
    rw [List.mem_map] at hl
    obtain ⟨r, hr, rfl⟩ := hl
    rw [List.mem_map] at hr
    obtain ⟨pq, hpq, rfl⟩ := hr
    exact List.all_eq_true.mp (hone (envs pq.1) pq.2 pq.1) _ hxl
  · rw [if_neg hc]
    simp

/-! ## Claims -/

/-- C1 counterexample: in the scenario where the thumbnail upload succeeds on
attempt 1 and the main upload fails on attempts 1 and 2 and succeeds on
attempt 3, the claim says the thumbnail is uploaded exactly once; in the
code the thumbnail is re-uploaded on every retry, three times in total
(while the main artifact is uploaded three times and exactly one success
notification is emitted, as the claim also says). -/
theorem c1_per_artifact_retry_counterexample :
    ((processSingleImage mainFlakyEnv sampleImage 0 85 75 600 "bkt" "https://cdn.example" "").1.countP
        isUploadMain = 3 ∧
      (processSingleImage mainFlakyEnv sampleImage 0 85 75 600 "bkt" "https://cdn.example" "").1.countP
        isSuccessNotify = 1) ∧
    (processSingleImage mainFlakyEnv sampleImage 0 85 75 600 "bkt" "https://cdn.example" "").1.countP
      isUploadThumb = 3 ∧
    ¬ (processSingleImage mainFlakyEnv sampleImage 0 85 75 600 "bkt" "https://cdn.example" "").1.countP
        isUploadThumb = 1 := by decide

/-- C1 amended: the retry is whole-pair, not per-artifact. In the scenario
where the thumbnail upload succeeds on every attempt and the main upload
fails on attempts 1 and 2 and succeeds on attempt 3, both artifacts are
uploaded exactly three times and exactly one success notification (and no
failure notification) is emitted at the end, the run succeeding. -/
theorem c1_whole_pair_retry (img : ImageInput) (idx q tq ts : Nat) (b u cid : String) :
    (processSingleImage mainFlakyEnv img idx q tq ts b u cid).1.countP isUploadThumb = 3 ∧
    (processSingleImage mainFlakyEnv img idx q tq ts b u cid).1.countP isUploadMain = 3 ∧
    (processSingleImage mainFlakyEnv img idx q tq ts b u cid).1.countP isSuccessNotify = 1 ∧
    (processSingleImage mainFlakyEnv img idx q tq ts b u cid).1.countP isFailureNotify = 0 ∧
    (processSingleImage mainFlakyEnv img idx q tq ts b u cid).2 = Except.ok () := by
  rw [processSingleImage_ok mainFlakyEnv img idx q tq ts b u cid rfl rfl]
  simp [uploadLoop, mainFlakyEnv, allOkEnv, List.countP_cons, isUploadThumb, isUploadMain,
    isSuccessNotify, isFailureNotify, successPayloadOf]

/-- C2 counterexample: an image whose main encode fails reaches a terminal
state (its error propagates to the batch caller) with zero notifications
emitted, not exactly one. -/
theorem c2_notify_exactly_once_counterexample :
    (processSingleImage (encodeFailsEnv "cannot write mode") sampleImage 0 85 75 600
        "bkt" "u" "").1.countP isNotify = 0 ∧
    (processSingleImage (encodeFailsEnv "cannot write mode") sampleImage 0 85 75 600
        "bkt" "u" "").2 = Except.error "cannot write mode" := by decide

/-- C2 amended: for every image whose two encodes succeed, exactly one
notification is emitted and it is the final event of the trace, after every
upload event; an image whose encoding fails receives zero notifications, its
codec error propagating directly. -/
theorem c2_single_terminal_notification (env : ImageEnv) (img : ImageInput)
    (idx q tq ts : Nat) (b u cid : String) :
    (env.encodeMainErr = none ∧ env.encodeThumbErr = none →
      (processSingleImage env img idx q tq ts b u cid).1.countP isNotify = 1 ∧
      ((processSingleImage env img idx q tq ts b u cid).1.dropLast.all
        (fun ev => !isNotify ev)) = true) ∧
    (∀ e, env.encodeMainErr = some e →
      (processSingleImage env img idx q tq ts b u cid).1.countP isNotify = 0) ∧
    (∀ e, env.encodeMainErr = none → env.encodeThumbErr = some e →
      (processSingleImage env img idx q tq ts b u cid).1.countP isNotify = 0) := by
  refine ⟨?_, ?_, ?_⟩
  · rintro ⟨h1, h2⟩
    rw [processSingleImage_ok env img idx q tq ts b u cid h1 h2]
    obtain ⟨pre, last, heq, hl, hp⟩ := uploadLoop_last_notify env (sidOf cid)
      (successPayloadOf img u) idx b (mainKey (getOrientation img.w img.h) img.filename)
      (thumbKey (getOrientation img.w img.h) img.filename) 3 0 (by norm_num)
    have hc := uploadLoop_notify_count env (sidOf cid) (successPayloadOf img u) idx b
      (mainKey (getOrientation img.w img.h) img.filename)
      (thumbKey (getOrientation img.w img.h) img.filename) 3 0 (by norm_num)
    constructor
    · simp [List.countP_cons, isNotify, hc]
    · rw [heq, ← List.cons_append, ← List.cons_append, List.dropLast_concat,
        List.all_cons, List.all_cons, hp]
      simp [isNotify]
  · intro e h1
    rw [processSingleImage_encodeMain_fails env img idx q tq ts b u cid e h1]
    simp [isNotify]
  · intro e h1 h2
    rw [processSingleImage_encodeThumb_fails env img idx q tq ts b u cid e h1 h2]
    simp [isNotify]

/-- Witness for the C2 amended theorem: evaluated on the all-success schedule
and on two encode-failure schedules. -/
theorem c2_single_terminal_notification_witness :
    ((processSingleImage allOkEnv sampleImage 0 85 75 600 "bkt" "u" "").1.countP isNotify = 1 ∧
      ((processSingleImage allOkEnv sampleImage 0 85 75 600 "bkt" "u" "").1.dropLast.all
        (fun ev => !isNotify ev)) = true) ∧
    (processSingleImage (encodeFailsEnv "boom2") sampleImage 1 85 75 600
      "bkt" "u" "").1.countP isNotify = 0 ∧
    (processSingleImage { allOkEnv with encodeThumbErr := some "tboom" } sampleImage 2 85 75 600
      "bkt" "u" "").1.countP isNotify = 0 :=
  ⟨(c2_single_terminal_notification allOkEnv sampleImage 0 85 75 600 "bkt" "u" "").1 ⟨rfl, rfl⟩,
   (c2_single_terminal_notification (encodeFailsEnv "boom2") sampleImage 1 85 75 600
     "bkt" "u" "").2.1 "boom2" rfl,
   (c2_single_terminal_notification { allOkEnv with encodeThumbErr := some "tboom" } sampleImage
     2 85 75 600 "bkt" "u" "").2.2 "tboom" rfl rfl⟩

/-- C3 counterexample: for a 200 by 100 source and target size 100, the
generated thumbnail is 100 by 50 (aspect-preserving fit), not the claimed
100 by 100 center-cropped square, and the pipeline submits the thumbnail
encode at exactly those dimensions. -/
theorem c3_thumbnail_square_counterexample :
    thumbDims 200 100 100 = (100, 50) ∧ thumbDims 200 100 100 ≠ (100, 100) ∧
    Event.encodeThumb 100 50 75 ∈
      (processSingleImage allOkEnv { w := 200, h := 100, filename := "cex" } 0 85 75 100
        "bkt" "u" "").1 := by decide

/-- C3 amended: no center crop is performed; the thumbnail is an
aspect-preserving fit of the whole source computed with bilinear
interpolation: for W greater than H the output is S by floor(H*S/W),
otherwise floor(W*S/H) by S; both output dimensions are at most S and the
longer output edge is exactly S. -/
theorem c3_thumbnail_aspect_fit (w h s : Nat) (hw : 0 < w) (hh : 0 < h) :
    (w > h → thumbDims w h s = (s, h * s / w)) ∧
    (w ≤ h → thumbDims w h s = (w * s / h, s)) ∧
    (thumbDims w h s).1 ≤ s ∧ (thumbDims w h s).2 ≤ s ∧
    max (thumbDims w h s).1 (thumbDims w h s).2 = s := by
  by_cases hcmp : w > h
  · have hle : h ≤ w := le_of_lt hcmp
    have hds : h * s / w ≤ s := by
      have h1 : h * s ≤ w * s := Nat.mul_le_mul_right s hle
      have h2 : h * s / w ≤ w * s / w := Nat.div_le_div_right h1
      rwa [Nat.mul_div_cancel_left s hw] at h2
    refine ⟨fun _ => by simp [thumbDims, hcmp], fun hc => absurd hcmp (by omega), ?_, ?_, ?_⟩
    · simp [thumbDims, hcmp]
    · simp [thumbDims, hcmp, hds]
    · simp [thumbDims, hcmp, Nat.max_eq_left hds]
  · have hle : w ≤ h := by omega
    have hds : w * s / h ≤ s := by
      have h1 : w * s ≤ h * s := Nat.mul_le_mul_right s hle
      have h2 : w * s / h ≤ h * s / h := Nat.div_le_div_right h1
      rwa [Nat.mul_div_cancel_left s hh] at h2
    refine ⟨fun hc => absurd hc hcmp, fun _ => by simp [thumbDims, hcmp], ?_, ?_, ?_⟩
    · simp [thumbDims, hcmp, hds]
    · simp [thumbDims, hcmp]
    · simp [thumbDims, hcmp, Nat.max_eq_right hds]

/-- Witness for the C3 amended theorem at a 4 by 2 source and target 100. -/
theorem c3_thumbnail_aspect_fit_witness :
    ((4 : Nat) > 2 → thumbDims 4 2 100 = (100, 2 * 100 / 4)) ∧
    ((4 : Nat) ≤ 2 → thumbDims 4 2 100 = (4 * 100 / 2, 100)) ∧
    (thumbDims 4 2 100).1 ≤ 100 ∧ (thumbDims 4 2 100).2 ≤ 100 ∧
    max (thumbDims 4 2 100).1 (thumbDims 4 2 100).2 = 100 :=
  c3_thumbnail_aspect_fit 4 2 100 (by decide) (by decide)

/-- C4 counterexample: a main-encode (codec) failure is a per-image terminal
failure that is re-raised to the batch caller, yet no failure notification
(indeed no notification at all) is emitted first. -/
theorem c4_notify_before_reraise_counterexample :
    (processSingleImage (encodeFailsEnv "encoder rejected size")
        { w := 3, h := 5, filename := "g1" } 2 85 75 600 "bkt" "u" "c7").1.countP
      isFailureNotify = 0 ∧
    (processSingleImage (encodeFailsEnv "encoder rejected size")
        { w := 3, h := 5, filename := "g1" } 2 85 75 600 "bkt" "u" "c7").2 =
      Except.error "encoder rejected size" := by decide

/-- C4 amended: an upload failure that exhausts the retries emits exactly one
failure notification as the final trace event and only then re-raises the
error; an encode (codec) failure, by contrast, is re-raised to the batch
caller without any notification being emitted. -/
theorem c4_upload_failures_notify_then_raise (e : String) (img : ImageInput)
    (idx q tq ts : Nat) (b u cid : String) :
    ((processSingleImage (mainAlwaysFailsEnv e) img idx q tq ts b u cid).1.countP
        isFailureNotify = 1 ∧
      ((processSingleImage (mainAlwaysFailsEnv e) img idx q tq ts b u cid).1.dropLast.all
        (fun ev => !isNotify ev)) = true ∧
      (processSingleImage (mainAlwaysFailsEnv e) img idx q tq ts b u cid).2 =
        Except.error e) ∧
    (∀ e2,
      (processSingleImage (encodeFailsEnv e2) img idx q tq ts b u cid).1.countP isNotify = 0 ∧
      (processSingleImage (encodeFailsEnv e2) img idx q tq ts b u cid).2 =
        Except.error e2) := by
  constructor
  · rw [processSingleImage_ok (mainAlwaysFailsEnv e) img idx q tq ts b u cid rfl rfl]
    refine ⟨?_, ?_, ?_⟩
    · simp [uploadLoop, mainAlwaysFailsEnv, allOkEnv, List.countP_cons, isFailureNotify]
    · simp [uploadLoop, mainAlwaysFailsEnv, allOkEnv, List.dropLast, isNotify]
    · simp [uploadLoop, mainAlwaysFailsEnv, allOkEnv]
  · intro e2
    rw [processSingleImage_encodeMain_fails (encodeFailsEnv e2) img idx q tq ts b u cid e2 rfl]
    exact ⟨by simp [isNotify], rfl⟩

/-- C5: under any failure schedule each artifact is upload-submitted at most
3 times; and when every attempt fails, the main artifact is uploaded exactly
3 times, exactly one failure notification is emitted, carrying the
underlying error text and the image index and routed to the session of the
client id, no success notification is ever emitted, and the error is then
re-raised to the scheduler. -/
theorem c5_retry_cap_and_exhaustion (env : ImageEnv) (e : String) (img : ImageInput)
    (idx q tq ts : Nat) (b u cid : String) :
    ((processSingleImage env img idx q tq ts b u cid).1.countP isUploadMain ≤ 3 ∧
      (processSingleImage env img idx q tq ts b u cid).1.countP isUploadThumb ≤ 3) ∧
    ((processSingleImage (mainAlwaysFailsEnv e) img idx q tq ts b u cid).1.countP
        isUploadMain = 3 ∧
      (processSingleImage (mainAlwaysFailsEnv e) img idx q tq ts b u cid).1.countP
        isFailureNotify = 1 ∧
      (processSingleImage (mainAlwaysFailsEnv e) img idx q tq ts b u cid).1.countP
        isSuccessNotify = 0 ∧
      Event.notify "s3-upload-failed" (Payload.failure e idx) (sidOf cid) ∈
        (processSingleImage (mainAlwaysFailsEnv e) img idx q tq ts b u cid).1 ∧
      (processSingleImage (mainAlwaysFailsEnv e) img idx q tq ts b u cid).2 =
        Except.error e) := by
  constructor
  · cases h1 : env.encodeMainErr with
    | some e1 =>
      rw [processSingleImage_encodeMain_fails env img idx q tq ts b u cid e1 h1]
      exact ⟨by simp [isUploadMain], by simp [isUploadThumb]⟩
    | none =>
      cases h2 : env.encodeThumbErr with
      | some e2 =>
        rw [processSingleImage_encodeThumb_fails env img idx q tq ts b u cid e2 h1 h2]
        exact ⟨by simp [isUploadMain], by simp [isUploadThumb]⟩
      | none =>
        rw [processSingleImage_ok env img idx q tq ts b u cid h1 h2]
        have hm := uploadLoop_uploadMain_le env (sidOf cid) (successPayloadOf img u) idx b
          (mainKey (getOrientation img.w img.h) img.filename)
          (thumbKey (getOrientation img.w img.h) img.filename) 3 0
        have ht := uploadLoop_uploadThumb_le env (sidOf cid) (successPayloadOf img u) idx b
          (mainKey (getOrientation img.w img.h) img.filename)
          (thumbKey (getOrientation img.w img.h) img.filename) 3 0
        constructor
        · simpa [List.countP_cons, isUploadMain] using hm
        · simpa [List.countP_cons, isUploadThumb] using ht
  · rw [processSingleImage_ok (mainAlwaysFailsEnv e) img idx q tq ts b u cid rfl rfl]
    refine ⟨?_, ?_, ?_, ?_, ?_⟩
    · simp [uploadLoop, mainAlwaysFailsEnv, allOkEnv, List.countP_cons, isUploadMain]
    · simp [uploadLoop, mainAlwaysFailsEnv, allOkEnv, List.countP_cons, isFailureNotify]
    · simp [uploadLoop, mainAlwaysFailsEnv, allOkEnv, List.countP_cons, isSuccessNotify]
    · simp [uploadLoop, mainAlwaysFailsEnv, allOkEnv]
    · simp [uploadLoop, mainAlwaysFailsEnv, allOkEnv]

/-- C6: the main and thumbnail storage keys have exactly the specified
layout, built from the same identifier and the same orientation segment; the
orientation segment is landscape exactly when W is greater than H, portrait
exactly when H is greater than W, and square exactly when they are equal;
and every upload in any trace of the pipeline uses exactly these two keys. -/
theorem c6_storage_key_layout (w h : Nat) (fn : String) (env : ImageEnv)
    (img : ImageInput) (idx q tq ts : Nat) (b u cid : String) :
    mainKey (getOrientation w h) fn =
      "generated/originals/" ++ getOrientation w h ++ "/" ++ fn ++ ".webp" ∧
    thumbKey (getOrientation w h) fn =
      "generated/thumbnails/" ++ getOrientation w h ++ "/" ++ fn ++ "_thumb.webp" ∧
    (getOrientation w h = "landscape" ↔ w > h) ∧
    (getOrientation w h = "portrait" ↔ h > w) ∧
    (getOrientation w h = "square" ↔ w = h) ∧
    (processSingleImage env img idx q tq ts b u cid).1.all
      (uploadKeysAre b (mainKey (getOrientation img.w img.h) img.filename)
        (thumbKey (getOrientation img.w img.h) img.filename)) = true := by
  refine ⟨rfl, rfl, ?_, ?_, ?_, ?_⟩
  · unfold getOrientation
    rcases Nat.lt_trichotomy w h with h1 | h1 | h1
    · have hn : ¬ w > h := by omega
      rw [if_neg hn, if_pos h1]
      exact ⟨fun hx => absurd hx (by decide), fun hx => absurd hx hn⟩
    · have hn : ¬ w > h := by omega
      have hn2 : ¬ h > w := by omega
      rw [if_neg hn, if_neg hn2]
      exact ⟨fun hx => absurd hx (by decide), fun hx => absurd hx hn⟩
    · rw [if_pos h1]
      exact ⟨fun _ => h1, fun _ => rfl⟩
  · unfold getOrientation
    rcases Nat.lt_trichotomy w h with h1 | h1 | h1
    · have hn : ¬ w > h := by omega
      rw [if_neg hn, if_pos h1]
      exact ⟨fun _ => h1, fun _ => rfl⟩
    · have hn : ¬ w > h := by omega
      have hn2 : ¬ h > w := by omega
      rw [if_neg hn, if_neg hn2]
      exact ⟨fun hx => absurd hx (by decide), fun hx => absurd hx hn2⟩
    · rw [if_pos h1]
      exact ⟨fun hx => absurd hx (by decide), fun hx => absurd hx (by omega)⟩
  · unfold getOrientation
    rcases Nat.lt_trichotomy w h with h1 | h1 | h1
    · have hn : ¬ w > h := by omega
      rw [if_neg hn, if_pos h1]
      exact ⟨fun hx => absurd hx (by decide), fun hx => absurd hx (by omega)⟩
    · have hn : ¬ w > h := by omega
      have hn2 : ¬ h > w := by omega
      rw [if_neg hn, if_neg hn2]
      exact ⟨fun _ => h1, fun _ => rfl⟩
    · rw [if_pos h1]
      exact ⟨fun hx => absurd hx (by decide), fun hx => absurd hx (by omega)⟩
  · exact processSingleImage_all env img idx q tq ts b u cid _
      (fun _ _ _ => rfl) (fun _ _ _ => rfl)
      (fun a => by simp [uploadKeysAre])
      (fun a => by simp [uploadKeysAre])
      rfl (fun e => rfl)

/-- C7 counterexample: a successful run emits its notification under the
name "s3-image-uploaded", not "image-uploaded", and an exhausted-retries run
emits its notification under "s3-upload-failed", not "upload-failed". -/
theorem c7_event_names_counterexample :
    ((processSingleImage allOkEnv sampleImage 0 85 75 600 "bkt" "u" "").1.countP
        isSuccessNotify = 1 ∧
      (processSingleImage allOkEnv sampleImage 0 85 75 600 "bkt" "u" "").1.countP
        (isNotifyName "image-uploaded") = 0) ∧
    ((processSingleImage (mainAlwaysFailsEnv "err") sampleImage 3 85 75 600
        "bkt" "u" "").1.countP isFailureNotify = 1 ∧
      (processSingleImage (mainAlwaysFailsEnv "err") sampleImage 3 85 75 600
        "bkt" "u" "").1.countP (isNotifyName "upload-failed") = 0) := by decide

/-- C7 amended: every notification published by the pipeline uses the event
name "s3-image-uploaded" for a success payload and "s3-upload-failed" for a
failure payload, whatever the failure schedule. -/
theorem c7_event_names (env : ImageEnv) (img : ImageInput) (idx q tq ts : Nat)
    (b u cid : String) :
    (processSingleImage env img idx q tq ts b u cid).1.all notifyNameOk = true :=
  processSingleImage_all env img idx q tq ts b u cid notifyNameOk
    (fun _ _ _ => rfl) (fun _ _ _ => rfl) (fun _ => rfl) (fun _ => rfl)
    (by simp [notifyNameOk, successPayloadOf]) (fun e => by simp [notifyNameOk])

/-- C8: when any of the five credential strings is empty (absent parameters
default to the empty string in the source), the batch call fails with the
credentials error and its trace is empty: no upload, no notification, no
image is processed. -/
theorem c8_config_validation (cfg : S3Config) (envs : Nat → ImageEnv)
    (images : List ImageInput) (q tq ts : Nat) (cid : String)
    (hbad : cfg.endpoint = "" ∨ cfg.accessKey = "" ∨ cfg.secretKey = "" ∨
      cfg.bucket = "" ∨ cfg.publicUrl = "") :
    process cfg envs images q tq ts cid = ([], Except.error "S3 credentials missing") := by
  have hok : configOk cfg = false := by
    unfold configOk
    rcases hbad with h | h | h | h | h <;> simp [h]
  unfold process
  rw [hok]
  simp

/-- Witness for the C8 theorem: an otherwise valid configuration with an
empty bucket is rejected up front. -/
theorem c8_config_validation_witness :
    process emptyBucketCfg (fun _ => allOkEnv) [sampleImage] 85 75 600 "" =
      ([], Except.error "S3 credentials missing") :=
  c8_config_validation emptyBucketCfg (fun _ => allOkEnv) [sampleImage] 85 75 600 ""
    (Or.inr (Or.inr (Or.inr (Or.inl rfl))))

/-- C9: in the 3-image batch where image 1 exhausts its retries and images 0
and 2 succeed, all three images are processed to a terminal state (three
encode submissions, three notifications: two success and one failure, the
failure carrying index 1), and the batch call then surfaces the error of the
failed image. -/
theorem c9_batch_isolation :
    (process batchCfg batchEnvs batchImages 85 75 600 "").1.countP isNotify = 3 ∧
    (process batchCfg batchEnvs batchImages 85 75 600 "").1.countP isSuccessNotify = 2 ∧
    (process batchCfg batchEnvs batchImages 85 75 600 "").1.countP isFailureNotify = 1 ∧
    Event.notify "s3-upload-failed" (Payload.failure "socket timeout" 1) none ∈
      (process batchCfg batchEnvs batchImages 85 75 600 "").1 ∧
    (process batchCfg batchEnvs batchImages 85 75 600 "").1.countP isEncodeMain = 3 ∧
    (process batchCfg batchEnvs batchImages 85 75 600 "").2 =
      Except.error "socket timeout" := by decide

/-- C10: every notification of a single-image run is published with session
id sidOf of the client id; the empty client id maps to the absent (broadcast)
session, a non-empty client id is passed through unchanged; and the same
holds for every notification of a whole batch. -/
theorem c10_session_routing (env : ImageEnv) (img : ImageInput)
    (idx q tq ts : Nat) (b u cid : String) (cfg : S3Config) (envs : Nat → ImageEnv)
    (images : List ImageInput) :
    (processSingleImage env img idx q tq ts b u cid).1.all (notifySidIs (sidOf cid)) = true ∧
    sidOf "" = none ∧
    (cid ≠ "" → sidOf cid = some cid) ∧
    (process cfg envs images q tq ts cid).1.all (notifySidIs (sidOf cid)) = true := by
  refine ⟨?_, by simp [sidOf], fun hne => by simp [sidOf, hne], ?_⟩
  · exact processSingleImage_all env img idx q tq ts b u cid _
      (fun _ _ _ => rfl) (fun _ _ _ => rfl) (fun _ => rfl) (fun _ => rfl)
      (by simp [notifySidIs]) (fun e => by simp [notifySidIs])
  · exact process_all cfg envs images q tq ts cid _
      (fun env2 img2 idx2 =>
        processSingleImage_all env2 img2 idx2 q tq ts cfg.bucket cfg.publicUrl cid _
          (fun _ _ _ => rfl) (fun _ _ _ => rfl) (fun _ => rfl) (fun _ => rfl)
          (by simp [notifySidIs]) (fun e => by simp [notifySidIs]))

/-- Witness for the C10 theorem with a non-empty client id. -/
theorem c10_session_routing_witness :
    (processSingleImage allOkEnv sampleImage 0 85 75 600 "bkt" "u" "abc").1.all
      (notifySidIs (sidOf "abc")) = true ∧
    sidOf "" = none ∧
    sidOf "abc" = some "abc" ∧
    (process batchCfg (fun _ => allOkEnv) batchImages 85 75 600 "abc").1.all
      (notifySidIs (sidOf "abc")) = true :=
  ⟨(c10_session_routing allOkEnv sampleImage 0 85 75 600 "bkt" "u" "abc" batchCfg
      (fun _ => allOkEnv) batchImages).1,
   (c10_session_routing allOkEnv sampleImage 0 85 75 600 "bkt" "u" "abc" batchCfg
      (fun _ => allOkEnv) batchImages).2.1,
   (c10_session_routing allOkEnv sampleImage 0 85 75 600 "bkt" "u" "abc" batchCfg
      (fun _ => allOkEnv) batchImages).2.2.1 (by decide),
   (c10_session_routing allOkEnv sampleImage 0 85 75 600 "bkt" "u" "abc" batchCfg
      (fun _ => allOkEnv) batchImages).2.2.2⟩
